import Mathlib

/-!
Shallow embedding of the connection/session lifecycle core of `ry_pg_utils`
(file `ry_pg_utils/connect.py`), together with a spec-modelled fragment of the
change-trigger validator whose implementation module is not part of the
snapshot.  The two module-level dictionaries `ENGINE` and
`THREAD_SAFE_SESSION_FACTORY` are modelled as insertion-ordered association
lists (Python dicts preserve insertion order, and `next(iter(d))` returns the
first inserted key), bundled into a `DbState`.  Thread-local state
(`_thread_local`: the backend id and the per-scope session kept by
`scoped_session`) is a `ScopeState`.  Exceptions are values of `PyError`;
side effects (logging, commit, rollback, scoped-session removal, running the
caller's body) are recorded as an event trace.
-/

/-- Look up the value bound to key `k` in an insertion-ordered association
list (models `d[k]` / `k in d` on a Python dict). -/
def lookupKey {α : Type} (k : String) : List (String × α) → Option α
  | [] => none
  | p :: t => if p.1 = k then some p.2 else lookupKey k t

/-- Remove every binding for key `k` from an association list
(models `del d[k]` / `d.pop(k, None)` on a Python dict). -/
def eraseKey {α : Type} (k : String) (l : List (String × α)) : List (String × α) :=
  l.filter (fun p => decide (p.1 ≠ k))

/-- Pool configuration of a created engine (`create_engine(uri, **kwargs)`);
only the four pool options touched by `init_engine`'s defaults are modelled. -/
structure Engine where
  uri : String
  pool_recycle : Nat
  pool_pre_ping : Bool
  pool_size : Nat
  max_overflow : Nat
deriving DecidableEq

/-- Caller-supplied keyword options of `init_engine`; `none` means the caller
did not pass the keyword, so `kwargs.setdefault` fills in the default. -/
structure EngineKwargs where
  pool_recycle : Option Nat
  pool_pre_ping : Option Bool
  pool_size : Option Nat
  max_overflow : Option Nat
deriving DecidableEq

/-- Result of `scoped_session(sessionmaker(bind=ENGINE[db]))`: a factory whose
sessions are bound to one engine. -/
structure ScopedSessionFactory where
  bound : Engine
deriving DecidableEq

/-- Session produced by calling a scoped session factory. -/
structure Session where
  bound : Engine
deriving DecidableEq

/-- The two module-level registries of `connect.py`:
`ENGINE : Dict[str, Engine]` and
`THREAD_SAFE_SESSION_FACTORY : Dict[str, ScopedSession]`. -/
structure DbState where
  engine : List (String × Engine)
  sessionFactory : List (String × ScopedSessionFactory)
deriving DecidableEq

/-- Thread-local state: `_thread_local.backend_id` plus the current per-scope
session registry maintained by each `scoped_session` (one live session per
(scope, database); `remove()` discards the scope's session). -/
structure ScopeState where
  backendId : Option String
  liveSessions : List (String × Session)
deriving DecidableEq

/-- Embeds `init_engine(uri, db, **kwargs)`: if `db` is not yet registered,
create an engine from `uri` with the four pool defaults
(`pool_recycle=3600`, `pool_pre_ping=True`, `pool_size=5`, `max_overflow=10`)
each overridable by a caller-supplied keyword; otherwise return the engine
already registered for `db` untouched. -/
def init_engine (uri : String) (db : String) (kwargs : EngineKwargs)
    (st : DbState) : Engine × DbState :=
  match lookupKey db st.engine with
  | some e => (e, st)
  | none =>
    let e : Engine :=
      ⟨uri, kwargs.pool_recycle.getD 3600, kwargs.pool_pre_ping.getD true,
        kwargs.pool_size.getD 5, kwargs.max_overflow.getD 10⟩
    (e, ⟨st.engine ++ [(db, e)], st.sessionFactory⟩)

/-- Embeds `clear_db()`: reset both registries to empty dicts. -/
def clear_db (_st : DbState) : DbState := ⟨[], []⟩

/-- Embeds `close_engine(db)`: if `db` is registered, dispose its engine
(returned in the first component as the list of engines whose pooled
connections were closed) and delete it; then pop any session factory for
`db` (`pop(db, None)` — no error when absent). -/
def close_engine (db : String) (st : DbState) : List Engine × DbState :=
  match lookupKey db st.engine with
  | some e => ([e], ⟨eraseKey db st.engine, eraseKey db st.sessionFactory⟩)
  | none => ([], ⟨st.engine, eraseKey db st.sessionFactory⟩)

/-- Embeds `_init_session_factory(db)`: `ValueError` when no engine is
registered for `db`; otherwise create the scoped session factory bound to
`ENGINE[db]` on first use and return the registered factory. -/
def _init_session_factory (db : String) (st : DbState) :
    Except String (ScopedSessionFactory × DbState) :=
  match lookupKey db st.engine with
  | none => .error "Call init_engine before initializing session factory for {db}!"
  | some e =>
    match lookupKey db st.sessionFactory with
    | some f => .ok (f, st)
    | none =>
      let f : ScopedSessionFactory := ⟨e⟩
      .ok (f, ⟨st.engine, st.sessionFactory ++ [(db, f)]⟩)

/-- Embeds `is_session_factory_initialized()`. -/
def is_session_factory_initialized (st : DbState) : Bool :=
  !st.sessionFactory.isEmpty

/-- Embeds `is_database_initialized(db)`. -/
def is_database_initialized (db : String) (st : DbState) : Bool :=
  (lookupKey db st.sessionFactory).isSome

/-- Embeds `set_backend_id(backend_id)`. -/
def set_backend_id (backend_id : String) (sc : ScopeState) : ScopeState :=
  ⟨some backend_id, sc.liveSessions⟩

/-- Embeds `get_backend_id()`. -/
def get_backend_id (sc : ScopeState) : Option String :=
  sc.backendId

/-- Python exceptions relevant to the core: `ValueError` (raised for an
uninitialized session factory and by `_init_session_factory`), SQLAlchemy's
`OperationalError` (transient connectivity failure) and any other exception. -/
inductive PyError where
  | valueError (msg : String)
  | operationalError (e : String)
  | otherError (e : String)
deriving DecidableEq

/-- Outcome of a call: returned normally or raised an exception. -/
inductive MSResult where
  | ok
  | raised (e : PyError)
deriving DecidableEq

/-- Observable effects performed by the core, recorded in order. -/
inductive SessionEvent where
  | logFail (msg : String)
  | logNormal (msg : String)
  | logOkBlue (msg : String)
  | yieldBody (sess : Option Session)
  | commit
  | rollback
  | removeScoped (db : String)
deriving DecidableEq

/-- Behaviour of the caller's body between `yield` and the end of the
`with` block: returns normally, raises `OperationalError`, or raises any
other exception. -/
inductive BodyOutcome where
  | normal
  | raisesOperational (e : String)
  | raisesOther (e : String)
deriving DecidableEq

/-- Result of one run of the `ManagedSession` context manager around a
caller body: the call's outcome, the ordered effect trace, and the
thread-local state at exit. -/
structure MSRun where
  result : MSResult
  events : List SessionEvent
  scope : ScopeState
deriving DecidableEq

/-- Python truthiness of an optional string (`if backend_id:`):
falsy when `None` or empty. -/
def truthy : Option String → Bool
  | none => false
  | some s => !(s == "")

/-- Embeds `db = next(iter(THREAD_SAFE_SESSION_FACTORY), None)` when the
caller omitted `db`: the first inserted key of the factory dict, if any. -/
def resolve_db (db : Option String) (st : DbState) : Option String :=
  match db with
  | some d => some d
  | none => st.sessionFactory.head?.map (fun p => p.1)

/-- Embeds calling a scoped session factory, `THREAD_SAFE_SESSION_FACTORY[db]()`:
return the scope's current session for `db` if one is live, otherwise create a
session bound to the factory's engine and remember it for the scope. -/
def acquireScoped (db : String) (f : ScopedSessionFactory) (sc : ScopeState) :
    Session × ScopeState :=
  match lookupKey db sc.liveSessions with
  | some sess => (sess, sc)
  | none => (⟨f.bound⟩, ⟨sc.backendId, sc.liveSessions ++ [(db, ⟨f.bound⟩)]⟩)

/-- Embeds `THREAD_SAFE_SESSION_FACTORY[db].remove()`: discard the scope's
current session for `db`. -/
def removeScopedSession (db : String) (sc : ScopeState) : ScopeState :=
  ⟨sc.backendId, eraseKey db sc.liveSessions⟩

/-- Message of the `ValueError` / failure log for an uninitialized factory;
Python formats `None` into the f-string when `db` resolved to `None`. -/
def notInitMsg : Option String → String
  | none => "Session factory for None not initialized."
  | some d => "Session factory for " ++ d ++ " not initialized."

/-- Embeds the branch of `ManagedSession` taken when the resolved `db` is
falsy or has no session factory: raise `ValueError` when
`config.pg_config.raise_on_use_before_init` is set; otherwise log the
failure and yield `None` to the body (whose own exception, if any,
propagates through the bare `yield` uncaught). -/
def missingRun (db : Option String) (raiseOnUse : Bool) (outcome : BodyOutcome)
    (sc : ScopeState) : MSRun :=
  if raiseOnUse then
    ⟨.raised (.valueError (notInitMsg db)), [], sc⟩
  else
    let evs := [SessionEvent.logFail (notInitMsg db), SessionEvent.yieldBody none]
    match outcome with
    | .normal => ⟨.ok, evs, sc⟩
    | .raisesOperational e => ⟨.raised (.operationalError e), evs, sc⟩
    | .raisesOther e => ⟨.raised (.otherError e), evs, sc⟩

/-- Embeds the `try/except/finally` of `ManagedSession` around the caller's
body: yield the session, then on normal return commit; on
`OperationalError` roll back, log, and re-raise; on any other exception
roll back and re-raise; in every case finally remove the scoped session. -/
def runBody (db : String) (sess : Session) (outcome : BodyOutcome) :
    MSResult × List SessionEvent :=
  match outcome with
  | .normal =>
    (.ok, [.yieldBody (some sess), .commit, .removeScoped db])
  | .raisesOperational e =>
    (.raised (.operationalError e),
      [.yieldBody (some sess), .rollback,
        .logFail ("Database operation failed: " ++ e), .removeScoped db])
  | .raisesOther e =>
    (.raised (.otherError e),
      [.yieldBody (some sess), .rollback, .removeScoped db])

/-- Embeds the `ManagedSession(db, backend_id)` context manager of
`connect.py` run around a caller body with behaviour `outcome`, in registry
state `st` and thread-local state `sc`, with
`config.pg_config.raise_on_use_before_init = raiseOnUse`. -/
def ManagedSession (db0 backend_id : Option String) (raiseOnUse : Bool)
    (outcome : BodyOutcome) (st : DbState) (sc : ScopeState) : MSRun :=
  match resolve_db db0 st with
  | none => missingRun none raiseOnUse outcome sc
  | some d =>
    if d = "" then missingRun (some d) raiseOnUse outcome sc
    else
      match lookupKey d st.sessionFactory with
      | none => missingRun (some d) raiseOnUse outcome sc
      | some f =>
        let acq := acquireScoped d f sc
        let sc2 := if truthy backend_id then ⟨backend_id, acq.2.liveSessions⟩ else acq.2
        let run := runBody d acq.1 outcome
        ⟨run.1, run.2, removeScopedSession d sc2⟩

/-- Result of one run of `init_database`. -/
structure InitRun where
  result : MSResult
  events : List SessionEvent
  state : DbState
deriving DecidableEq

/-- Embeds `init_database(db_name, db_user, db_password, db_host, db_port)`.
The environment's behaviour is passed in: `dbExists` is the outcome of the
`database_exists(engine.url)` probe (`error e` = it raised
`OperationalError e`, which is outside the `try` and so propagates), and
`createAll` is `some e` when `Base.metadata.create_all` raises
`OperationalError e` inside the `try`, in which case the code logs the
failure and the message `Continuing without db connection...` and returns
normally — it does not re-raise.  Model imports are elided. -/
def init_database (db_name db_user db_password db_host : String) (db_port : Nat)
    (dbExists : Except String Bool) (createAll : Option String)
    (st : DbState) : InitRun :=
  let uri :=
    if db_user ≠ "" ∧ db_password ≠ "" then
      "postgresql://" ++ db_user ++ ":" ++ db_password ++ "@" ++ db_host ++ ":"
        ++ toString db_port ++ "/" ++ db_name
    else if db_user ≠ "" then
      "postgresql://" ++ db_user ++ "@" ++ db_host ++ ":" ++ toString db_port
        ++ "/" ++ db_name
    else
      "postgresql://" ++ db_host ++ ":" ++ toString db_port ++ "/" ++ db_name
  let ev0 := [SessionEvent.logNormal
    ("Initializing database " ++ db_name ++ " at " ++ db_host ++ ":" ++ toString db_port)]
  let ini := init_engine uri db_name ⟨none, none, none, none⟩ st
  match dbExists with
  | .error e => ⟨.raised (.operationalError e), ev0, ini.2⟩
  | .ok ex =>
    let ev1 := ev0 ++ [if ex then SessionEvent.logNormal "Found existing database"
                       else SessionEvent.logOkBlue "Creating new database!"]
    match createAll with
    | some e =>
      ⟨.ok, ev1 ++ [SessionEvent.logFail ("Failed to initialize database: " ++ e),
        SessionEvent.logNormal "Continuing without db connection..."], ini.2⟩
    | none =>
      match _init_session_factory db_name ini.2 with
      | .ok pr => ⟨.ok, ev1, pr.2⟩
      | .error m => ⟨.raised (.valueError m), ev1, ini.2⟩

/-- ORM record as seen by the before-flush hook: an identity and the value of
its `backend_id` attribute (`none` when the attribute is unset / `None`). -/
structure FlushRecord where
  rid : Nat
  backend_id : Option String
deriving DecidableEq

/-- Flush-time view of a session: the table's records plus the identities of
the members of `session.dirty` and `session.new` for this flush. -/
structure FlushSession where
  records : List FlushRecord
  dirtyIds : List Nat
  newIds : List Nat
deriving DecidableEq

/-- Membership of a record in `session.dirty | session.new`. -/
def inFlushSet (fs : FlushSession) (i : Nat) : Bool :=
  fs.dirtyIds.contains i || fs.newIds.contains i

/-- Effect of the loop body of `receive_before_flush` on one record: records
in `session.dirty | session.new` whose `backend_id` is `None` get the
scope's backend id; every other record is untouched. -/
def stampRecord (bid : String) (fs : FlushSession) (r : FlushRecord) : FlushRecord :=
  if inFlushSet fs r.rid ∧ r.backend_id = none then ⟨r.rid, some bid⟩ else r

/-- Embeds the `before_flush` hook `receive_before_flush`: a no-op when the
scope's backend id is falsy (`None` or empty); otherwise it stamps exactly
the unset records in this flush's dirty/new sets. -/
def receive_before_flush (sc : ScopeState) (fs : FlushSession) : FlushSession :=
  match get_backend_id sc with
  | none => fs
  | some bid =>
    if bid = "" then fs
    else ⟨fs.records.map (stampRecord bid fs), fs.dirtyIds, fs.newIds⟩

/-- Errors of the trigger validator (Python `ValueError`, named `InvalidEvent`
/ `InvalidColumn` by the spec). -/
inductive TriggerError where
  | invalidEvent (e : String)
  | invalidColumn (c : String)
deriving DecidableEq

/-- The fixed set of valid trigger events. -/
def validEvents : List String := ["INSERT", "UPDATE", "DELETE"]

/-- Triggers installed on the target database, by trigger name. -/
structure TriggerState where
  triggers : List String
deriving DecidableEq

/-- Deterministic trigger name for a table/event pair. -/
def triggerName (table event : String) : String :=
  table ++ "_notify_trigger_" ++ event

/-- Modelled from the spec: the implementation module of
`create_notify_trigger` (`notify_trigger.py`) is absent from the snapshot —
only its tests (`test/notify_trigger_test.py`) are present.  Per the spec,
the call validates `events` against the fixed set {INSERT, UPDATE, DELETE}
and fails with `InvalidEvent` before any DDL executes if any value is
outside it (so no trigger, partial or otherwise, is installed); otherwise it
installs one trigger per requested event under the deterministic name
`<table>_notify_trigger_<event>`, replacing (drop-then-create) any existing
trigger of the same name. -/
def create_notify_trigger (table : String) (events : List String)
    (ts : TriggerState) : Except TriggerError TriggerState :=
  match events.find? (fun e => decide (e ∉ validEvents)) with
  | some e => .error (.invalidEvent e)
  | none =>
    .ok ⟨events.foldl
      (fun acc e => acc.filter (fun n => decide (n ≠ triggerName table e))
        ++ [triggerName table e]) ts.triggers⟩

/-- True of one session event exactly when it is the `yield` handing the
session to the caller's body. -/
def isYield : SessionEvent → Bool
  | .yieldBody _ => true
  | _ => false

/-- Number of times the caller's body was started during a run. -/
def yieldCount (evs : List SessionEvent) : Nat :=
  (evs.filter isYield).length

/-- True exactly of the `session.commit()` event. -/
def isCommit : SessionEvent → Bool
  | .commit => true
  | _ => false

/-- Number of commits in a trace. -/
def commitCount (evs : List SessionEvent) : Nat :=
  (evs.filter isCommit).length

/-- True exactly of the `session.rollback()` event. -/
def isRollback : SessionEvent → Bool
  | .rollback => true
  | _ => false

/-- Number of rollbacks in a trace. -/
def rollbackCount (evs : List SessionEvent) : Nat :=
  (evs.filter isRollback).length

/-- Invariant of the two registries: every database name with an initialized
session factory also has a registered engine. -/
def factoryKeysRegistered (st : DbState) : Bool :=
  st.sessionFactory.all (fun p => (lookupKey p.1 st.engine).isSome)

/-- Concrete engine used by the witness instantiations. -/
def engW : Engine := ⟨"postgresql://localhost:5432/app", 3600, true, 5, 10⟩

/-- Concrete session factory used by the witness instantiations. -/
def facW : ScopedSessionFactory := ⟨engW⟩

/-- Concrete registry state with one registered, initialized database. -/
def stW : DbState := ⟨[("app", engW)], [("app", facW)]⟩

/-- Concrete fresh thread-local state for the witness instantiations. -/
def scW : ScopeState := ⟨none, []⟩
theorem lookupKey_eraseKey_self {α : Type} (k : String) (l : List (String × α)) :
    lookupKey k (eraseKey k l) = none := by
  induction l with
  | nil => rfl
  | cons p t ih =>
    by_cases h : p.1 = k
    · simpa [eraseKey, List.filter_cons, h] using ih
    · simpa [eraseKey, List.filter_cons, h, lookupKey] using ih

theorem lookupKey_eraseKey_ne {α : Type} {k k2 : String} (h : k ≠ k2)
    (l : List (String × α)) : lookupKey k (eraseKey k2 l) = lookupKey k l := by
  induction l with
  | nil => rfl
  | cons p t ih =>
    have hs : ¬k2 = k := fun he => h he.symm
    by_cases hp : p.1 = k2
    · have hk : ¬p.1 = k := fun he => h (he ▸ hp)
      simpa [eraseKey, List.filter_cons, hp, lookupKey, hk, hs] using ih
    · by_cases hk : p.1 = k
      · simp [eraseKey, List.filter_cons, hp, lookupKey, hk, h]
      · simpa [eraseKey, List.filter_cons, hp, lookupKey, hk, hs] using ih

theorem eraseKey_of_lookupKey_none {α : Type} {k : String} {l : List (String × α)}
    (h : lookupKey k l = none) : eraseKey k l = l := by
  induction l with
  | nil => rfl
  | cons p t ih =>
    by_cases hp : p.1 = k
    · simp [lookupKey, hp] at h
    · simp [lookupKey, hp] at h
      simp [eraseKey, List.filter_cons, hp]
      simpa [eraseKey] using ih h

theorem lookupKey_append_of_none {α : Type} {k : String} {l : List (String × α)}
    (h : lookupKey k l = none) (l2 : List (String × α)) :
    lookupKey k (l ++ l2) = lookupKey k l2 := by
  induction l with
  | nil => rfl
  | cons p t ih =>
    by_cases hp : p.1 = k
    · simp [lookupKey, hp] at h
    · simp [lookupKey, hp] at h ⊢
      exact ih h

theorem lookupKey_append_of_some {α : Type} {k : String} {l : List (String × α)} {v : α}
    (h : lookupKey k l = some v) (l2 : List (String × α)) :
    lookupKey k (l ++ l2) = some v := by
  induction l with
  | nil => simp [lookupKey] at h
  | cons p t ih =>
    by_cases hp : p.1 = k
    · simp [lookupKey, hp] at h ⊢
      exact h
    · simp [lookupKey, hp] at h ⊢
      exact ih h



theorem init_engine_of_lookup_some {uri db : String} {kwargs : EngineKwargs}
    {st : DbState} {e : Engine} (h : lookupKey db st.engine = some e) :
    init_engine uri db kwargs st = (e, st) := by
  simp [init_engine, h]

theorem lookupKey_init_engine_self (uri db : String) (kwargs : EngineKwargs)
    (st : DbState) :
    lookupKey db (init_engine uri db kwargs st).2.engine
      = some (init_engine uri db kwargs st).1 := by
  rcases h : lookupKey db st.engine with _ | e
  · simp only [init_engine, h]
    rw [lookupKey_append_of_none h]
    simp [lookupKey]
  · simp [init_engine, h]

/-- C5: registration is create-once per database name: a first `init_engine`
call for a name creates the pooled engine from the given uri with defaults
`pool_recycle=3600`, `pool_pre_ping=True`, `pool_size=5`, `max_overflow=10`,
each overridden by a caller-supplied option when present, and registers it
under the name; any subsequent call for the same name returns the identical
registered engine with the registry unchanged, ignoring the uri and options
of the later call. -/
theorem init_engine_create_once (uri db : String) (kwargs : EngineKwargs)
    (st : DbState) :
    (lookupKey db st.engine = none →
      (init_engine uri db kwargs st).1.uri = uri
        ∧ (init_engine uri db kwargs st).1.pool_recycle = kwargs.pool_recycle.getD 3600
        ∧ (init_engine uri db kwargs st).1.pool_pre_ping = kwargs.pool_pre_ping.getD true
        ∧ (init_engine uri db kwargs st).1.pool_size = kwargs.pool_size.getD 5
        ∧ (init_engine uri db kwargs st).1.max_overflow = kwargs.max_overflow.getD 10
        ∧ lookupKey db (init_engine uri db kwargs st).2.engine
            = some (init_engine uri db kwargs st).1)
    ∧ (∀ uri2 kwargs2,
        init_engine uri2 db kwargs2 (init_engine uri db kwargs st).2
          = ((init_engine uri db kwargs st).1, (init_engine uri db kwargs st).2)) := by
  constructor
  · intro h
    refine ⟨?_, ?_, ?_, ?_, ?_, lookupKey_init_engine_self uri db kwargs st⟩ <;>
      simp [init_engine, h]
  · intro uri2 kwargs2
    exact init_engine_of_lookup_some (lookupKey_init_engine_self uri db kwargs st)

/-- Witness for C5 at a concrete input: registering `"app"` in the empty
registry with an explicit `pool_size=7` creates an engine with the stated
default and overridden options, and a second register call with different
uri and options returns the same engine unchanged. -/
theorem init_engine_create_once_witness :
    ((init_engine "postgresql://h:5432/app" "app" ⟨none, none, some 7, none⟩ ⟨[], []⟩).1.uri
        = "postgresql://h:5432/app"
      ∧ (init_engine "postgresql://h:5432/app" "app" ⟨none, none, some 7, none⟩ ⟨[], []⟩).1.pool_recycle = 3600
      ∧ (init_engine "postgresql://h:5432/app" "app" ⟨none, none, some 7, none⟩ ⟨[], []⟩).1.pool_pre_ping = true
      ∧ (init_engine "postgresql://h:5432/app" "app" ⟨none, none, some 7, none⟩ ⟨[], []⟩).1.pool_size = 7
      ∧ (init_engine "postgresql://h:5432/app" "app" ⟨none, none, some 7, none⟩ ⟨[], []⟩).1.max_overflow = 10
      ∧ lookupKey "app" (init_engine "postgresql://h:5432/app" "app" ⟨none, none, some 7, none⟩ ⟨[], []⟩).2.engine
          = some (init_engine "postgresql://h:5432/app" "app" ⟨none, none, some 7, none⟩ ⟨[], []⟩).1)
    ∧ init_engine "other://uri" "app" ⟨some 1, some false, some 2, some 3⟩
        (init_engine "postgresql://h:5432/app" "app" ⟨none, none, some 7, none⟩ ⟨[], []⟩).2
      = ((init_engine "postgresql://h:5432/app" "app" ⟨none, none, some 7, none⟩ ⟨[], []⟩).1,
         (init_engine "postgresql://h:5432/app" "app" ⟨none, none, some 7, none⟩ ⟨[], []⟩).2) := by
  have h := init_engine_create_once "postgresql://h:5432/app" "app"
    ⟨none, none, some 7, none⟩ ⟨[], []⟩
  exact ⟨h.1 (by decide), h.2 "other://uri" ⟨some 1, some false, some 2, some 3⟩⟩

/-- C7: `close_engine` on a registered name disposes exactly that name's
engine (closing its pooled connections) and removes the name from the engine
registry and from the session-factory registry, so a subsequent lookup of the
name misses; `close_engine` on a name absent from both registries is a
complete no-op and raises nothing (the function is total). -/
theorem close_engine_dispose_or_noop (db : String) (st : DbState) :
    (∀ e, lookupKey db st.engine = some e →
      (close_engine db st).1 = [e]
        ∧ lookupKey db (close_engine db st).2.engine = none
        ∧ lookupKey db (close_engine db st).2.sessionFactory = none)
    ∧ (lookupKey db st.engine = none → lookupKey db st.sessionFactory = none →
        close_engine db st = ([], st)) := by
  constructor
  · intro e h
    simp [close_engine, h, lookupKey_eraseKey_self]
  · intro h h2
    simp [close_engine, h, eraseKey_of_lookupKey_none h2]

/-- Witness for C7 at a concrete input: closing the registered name `"app"`
disposes its engine and empties both registry entries, and closing the
never-registered name `"ghost"` leaves the registry untouched. -/
theorem close_engine_dispose_or_noop_witness :
    ((close_engine "app" stW).1 = [engW]
      ∧ lookupKey "app" (close_engine "app" stW).2.engine = none
      ∧ lookupKey "app" (close_engine "app" stW).2.sessionFactory = none)
    ∧ close_engine "ghost" stW = ([], stW) := by
  exact ⟨(close_engine_dispose_or_noop "app" stW).1 engW (by decide),
    (close_engine_dispose_or_noop "ghost" stW).2 (by decide) (by decide)⟩

theorem init_engine_of_lookup_none {uri db : String} {kwargs : EngineKwargs}
    {st : DbState} (h : lookupKey db st.engine = none) :
    init_engine uri db kwargs st =
      (⟨uri, kwargs.pool_recycle.getD 3600, kwargs.pool_pre_ping.getD true,
          kwargs.pool_size.getD 5, kwargs.max_overflow.getD 10⟩,
        ⟨st.engine ++ [(db, ⟨uri, kwargs.pool_recycle.getD 3600,
          kwargs.pool_pre_ping.getD true, kwargs.pool_size.getD 5,
          kwargs.max_overflow.getD 10⟩)], st.sessionFactory⟩) := by
  simp [init_engine, h]

theorem close_engine_of_lookup_some {db : String} {st : DbState} {e : Engine}
    (h : lookupKey db st.engine = some e) :
    close_engine db st
      = ([e], ⟨eraseKey db st.engine, eraseKey db st.sessionFactory⟩) := by
  simp [close_engine, h]

theorem close_engine_of_lookup_none {db : String} {st : DbState}
    (h : lookupKey db st.engine = none) :
    close_engine db st = ([], ⟨st.engine, eraseKey db st.sessionFactory⟩) := by
  simp [close_engine, h]

theorem _init_session_factory_of_no_engine {db : String} {st : DbState}
    (h : lookupKey db st.engine = none) :
    _init_session_factory db st
      = .error "Call init_engine before initializing session factory for {db}!" := by
  simp [_init_session_factory, h]

theorem _init_session_factory_of_existing {db : String} {st : DbState}
    {e : Engine} {f : ScopedSessionFactory}
    (h : lookupKey db st.engine = some e)
    (hf : lookupKey db st.sessionFactory = some f) :
    _init_session_factory db st = .ok (f, st) := by
  simp [_init_session_factory, h, hf]

theorem _init_session_factory_of_fresh {db : String} {st : DbState} {e : Engine}
    (h : lookupKey db st.engine = some e)
    (hf : lookupKey db st.sessionFactory = none) :
    _init_session_factory db st
      = .ok (⟨e⟩, ⟨st.engine, st.sessionFactory ++ [(db, ⟨e⟩)]⟩) := by
  simp [_init_session_factory, h, hf]

/-- C10: the key set of the session-factory registry stays a subset of the
key set of the engine registry across every registry operation —
`init_engine` only adds engines, `_init_session_factory` adds a factory only
for a name whose engine exists (and errors otherwise), `close_engine`
removes the name from both registries, and `clear_db` empties both — and
after `close_engine db` or `clear_db`, `is_database_initialized db` is
false. -/
theorem registry_factory_subset_engine (db uri : String) (kwargs : EngineKwargs)
    (st : DbState) (h : factoryKeysRegistered st = true) :
    factoryKeysRegistered (init_engine uri db kwargs st).2 = true
    ∧ (∀ f st2, _init_session_factory db st = .ok (f, st2) →
        factoryKeysRegistered st2 = true)
    ∧ factoryKeysRegistered (close_engine db st).2 = true
    ∧ factoryKeysRegistered (clear_db st) = true
    ∧ is_database_initialized db (close_engine db st).2 = false
    ∧ is_database_initialized db (clear_db st) = false := by
  rw [factoryKeysRegistered, List.all_eq_true] at h
  refine ⟨?_, ?_, ?_, rfl, ?_, rfl⟩
  · rcases hv : lookupKey db st.engine with _ | e
    · rw [init_engine_of_lookup_none hv, factoryKeysRegistered, List.all_eq_true]
      intro p hp
      rcases Option.isSome_iff_exists.mp (h p hp) with ⟨v, hv2⟩
      simp [lookupKey_append_of_some hv2]
    · rw [init_engine_of_lookup_some hv, factoryKeysRegistered, List.all_eq_true]
      exact h
  · intro f st2 hok
    rcases hv : lookupKey db st.engine with _ | e
    · rw [_init_session_factory_of_no_engine hv] at hok
      cases hok
    · rcases hf : lookupKey db st.sessionFactory with _ | f0
      · rw [_init_session_factory_of_fresh hv hf] at hok
        obtain ⟨h1, h2⟩ : (⟨e⟩ : ScopedSessionFactory) = f
            ∧ (⟨st.engine, st.sessionFactory ++ [(db, ⟨e⟩)]⟩ : DbState) = st2 := by
          simpa using hok
        rw [← h2, factoryKeysRegistered, List.all_eq_true]
        intro p hp
        rcases List.mem_append.mp hp with hp1 | hp2
        · exact h p hp1
        · have hpd : p = (db, ⟨e⟩) := by simpa using hp2
          subst hpd
          simp [hv]
      · rw [_init_session_factory_of_existing hv hf] at hok
        obtain ⟨h1, h2⟩ : f0 = f ∧ st = st2 := by simpa using hok
        rw [← h2, factoryKeysRegistered, List.all_eq_true]
        exact h
  · rcases hv : lookupKey db st.engine with _ | e
    · rw [close_engine_of_lookup_none hv, factoryKeysRegistered, List.all_eq_true]
      intro p hp
      exact h p (List.mem_filter.mp hp).1
    · rw [close_engine_of_lookup_some hv, factoryKeysRegistered, List.all_eq_true]
      intro p hp
      have hp2 := List.mem_filter.mp hp
      have hne : p.1 ≠ db := of_decide_eq_true hp2.2
      rw [lookupKey_eraseKey_ne hne]
      exact h p hp2.1
  · rcases hv : lookupKey db st.engine with _ | e
    · rw [close_engine_of_lookup_none hv]
      simp [is_database_initialized, lookupKey_eraseKey_self]
    · rw [close_engine_of_lookup_some hv]
      simp [is_database_initialized, lookupKey_eraseKey_self]

/-- Witness for C10 at a concrete input: the invariant holds of the
one-database registry and is preserved by each operation on it, including
the successful `_init_session_factory` call. -/
theorem registry_factory_subset_engine_witness :
    factoryKeysRegistered (init_engine "u" "other" ⟨none, none, none, none⟩ stW).2 = true
    ∧ factoryKeysRegistered stW = true
    ∧ factoryKeysRegistered (close_engine "app" stW).2 = true
    ∧ is_database_initialized "app" (close_engine "app" stW).2 = false := by
  have h := registry_factory_subset_engine "app" "u" ⟨none, none, none, none⟩ stW (by decide)
  have h2 := registry_factory_subset_engine "other" "u" ⟨none, none, none, none⟩ stW (by decide)
  exact ⟨h2.1, by decide, h.2.2.1, h.2.2.2.2.1⟩

theorem missingRun_scope (db : Option String) (r : Bool) (o : BodyOutcome)
    (sc : ScopeState) : (missingRun db r o sc).scope = sc := by
  cases r <;> cases o <;> rfl

theorem ManagedSession_missing_none {db0 bid : Option String} {r : Bool}
    {o : BodyOutcome} {st : DbState} {sc : ScopeState}
    (hdb : resolve_db db0 st = none) :
    ManagedSession db0 bid r o st sc = missingRun none r o sc := by
  simp [ManagedSession, hdb]

theorem ManagedSession_empty_name {db0 bid : Option String} {r : Bool}
    {o : BodyOutcome} {st : DbState} {sc : ScopeState}
    (hdb : resolve_db db0 st = some "") :
    ManagedSession db0 bid r o st sc = missingRun (some "") r o sc := by
  simp [ManagedSession, hdb]

theorem ManagedSession_missing_some {db0 bid : Option String} {r : Bool}
    {o : BodyOutcome} {st : DbState} {sc : ScopeState} {d : String}
    (hdb : resolve_db db0 st = some d)
    (hf : lookupKey d st.sessionFactory = none) :
    ManagedSession db0 bid r o st sc = missingRun (some d) r o sc := by
  by_cases hd : d = ""
  · subst hd
    simp [ManagedSession, hdb]
  · simp [ManagedSession, hdb, hd, hf]

theorem ManagedSession_run_eq {db0 bid : Option String} {r : Bool}
    {o : BodyOutcome} {st : DbState} {sc : ScopeState} {d : String}
    {f : ScopedSessionFactory} (hdb : resolve_db db0 st = some d) (hd : d ≠ "")
    (hf : lookupKey d st.sessionFactory = some f) :
    ManagedSession db0 bid r o st sc =
      ⟨(runBody d (acquireScoped d f sc).1 o).1,
        (runBody d (acquireScoped d f sc).1 o).2,
        removeScopedSession d (if truthy bid then
          ⟨bid, (acquireScoped d f sc).2.liveSessions⟩
        else (acquireScoped d f sc).2)⟩ := by
  simp [ManagedSession, hdb, hd, hf]

/-- C1: for an initialized database `d` (non-empty name, session factory
present) and any caller body run inside `ManagedSession(d)`: the body is
started exactly once whatever its outcome (no automatic re-execution); on
normal return the session is committed exactly once and never rolled back;
on `OperationalError` the session is rolled back (never committed), the
error is reported via the failure log, and the same error is re-raised; on
any other exception the session is rolled back (never committed) and that
exception is re-raised. -/
theorem managed_session_commit_rollback_policy (d : String) (bid : Option String)
    (r : Bool) (st : DbState) (sc : ScopeState) (f : ScopedSessionFactory)
    (hd : d ≠ "") (hf : lookupKey d st.sessionFactory = some f) :
    (∀ o, yieldCount (ManagedSession (some d) bid r o st sc).events = 1)
    ∧ ((ManagedSession (some d) bid r .normal st sc).result = .ok
        ∧ commitCount (ManagedSession (some d) bid r .normal st sc).events = 1
        ∧ rollbackCount (ManagedSession (some d) bid r .normal st sc).events = 0)
    ∧ (∀ e, (ManagedSession (some d) bid r (.raisesOperational e) st sc).result
            = .raised (.operationalError e)
        ∧ rollbackCount
            (ManagedSession (some d) bid r (.raisesOperational e) st sc).events = 1
        ∧ commitCount
            (ManagedSession (some d) bid r (.raisesOperational e) st sc).events = 0
        ∧ SessionEvent.logFail ("Database operation failed: " ++ e)
            ∈ (ManagedSession (some d) bid r (.raisesOperational e) st sc).events)
    ∧ (∀ e, (ManagedSession (some d) bid r (.raisesOther e) st sc).result
            = .raised (.otherError e)
        ∧ rollbackCount
            (ManagedSession (some d) bid r (.raisesOther e) st sc).events = 1
        ∧ commitCount
            (ManagedSession (some d) bid r (.raisesOther e) st sc).events = 0) := by
  have hdb : resolve_db (some d) st = some d := rfl
  refine ⟨?_, ?_, ?_, ?_⟩
  · intro o
    rw [ManagedSession_run_eq hdb hd hf]
    cases o <;> rfl
  · rw [ManagedSession_run_eq hdb hd hf]
    exact ⟨rfl, rfl, rfl⟩
  · intro e
    rw [ManagedSession_run_eq hdb hd hf]
    refine ⟨rfl, rfl, rfl, ?_⟩
    simp [runBody]
  · intro e
    rw [ManagedSession_run_eq hdb hd hf]
    exact ⟨rfl, rfl, rfl⟩

/-- Witness for C1 at a concrete input: in a one-database registry, a normal
body commits once, an `OperationalError "boom"` body rolls back, is logged
and re-raised, and another exception `"oops"` rolls back and is re-raised. -/
theorem managed_session_commit_rollback_policy_witness :
    yieldCount (ManagedSession (some "app") none true .normal stW scW).events = 1
    ∧ (ManagedSession (some "app") none true .normal stW scW).result = .ok
    ∧ commitCount (ManagedSession (some "app") none true .normal stW scW).events = 1
    ∧ (ManagedSession (some "app") none true (.raisesOperational "boom") stW scW).result
        = .raised (.operationalError "boom")
    ∧ rollbackCount
        (ManagedSession (some "app") none true (.raisesOperational "boom") stW scW).events = 1
    ∧ (ManagedSession (some "app") none true (.raisesOther "oops") stW scW).result
        = .raised (.otherError "oops") := by
  have h := managed_session_commit_rollback_policy "app" none true stW scW facW
    (by decide) (by decide)
  exact ⟨h.1 .normal, h.2.1.1, h.2.1.2.1, (h.2.2.1 "boom").1, (h.2.2.1 "boom").2.1,
    (h.2.2.2 "oops").1⟩

/-- C2: on every exit path of `ManagedSession` — normal commit, exit via
`OperationalError`, exit via any other exception, and the tolerant no-op
branch taken when no session factory exists — the thread-scoped session
resource is released: a scope entering with no live session leaves with no
live session (so the next acquisition in the same scope starts fresh), and
on every initialized-database path the `remove()` call on the scoped
session factory is actually performed. -/
theorem managed_session_releases_scope (db0 bid : Option String) (r : Bool)
    (o : BodyOutcome) (st : DbState) (b : Option String) :
    (ManagedSession db0 bid r o st ⟨b, []⟩).scope.liveSessions = []
    ∧ (∀ sc d f, resolve_db db0 st = some d → d ≠ "" →
        lookupKey d st.sessionFactory = some f →
        SessionEvent.removeScoped d ∈ (ManagedSession db0 bid r o st sc).events) := by
  constructor
  · rcases hdb : resolve_db db0 st with _ | d
    · rw [ManagedSession_missing_none hdb, missingRun_scope]
    · by_cases hd : d = ""
      · subst hd
        rw [ManagedSession_empty_name hdb, missingRun_scope]
      · rcases hfd : lookupKey d st.sessionFactory with _ | f
        · rw [ManagedSession_missing_some hdb hfd, missingRun_scope]
        · rw [ManagedSession_run_eq hdb hd hfd]
          cases htr : truthy bid <;>
            simp [acquireScoped, lookupKey, removeScopedSession, eraseKey, htr]
  · intro sc d f hdb hd hfd
    rw [ManagedSession_run_eq hdb hd hfd]
    cases o <;> simp [runBody]

/-- Witness for C2 at a concrete input: a fresh scope running a normal body
against the one-database registry ends with no live session, and the
scoped-session removal event is present in the trace. -/
theorem managed_session_releases_scope_witness :
    (ManagedSession (some "app") none true .normal stW ⟨none, []⟩).scope.liveSessions = []
    ∧ SessionEvent.removeScoped "app"
        ∈ (ManagedSession (some "app") none true .normal stW scW).events := by
  have h := managed_session_releases_scope (some "app") none true .normal stW none
  exact ⟨h.1, h.2 scW "app" facW rfl (by decide) (by decide)⟩

/-- C6: requesting a session for a database name with no session factory
raises the `SessionNotInitialized` error (Python `ValueError` with the
message `Session factory for <db> not initialized.`) when
`raise_on_use_before_init` is on — before the body ever runs, so the trace
is empty; when tolerant mode is on, the same request logs that failure,
yields `None` (an empty no-op session) to the body, commits and rolls back
nothing, and raises nothing when the body returns normally. -/
theorem managed_session_uninitialized_raise_or_tolerant (d : String)
    (bid : Option String) (st : DbState) (sc : ScopeState) (o : BodyOutcome)
    (hf : lookupKey d st.sessionFactory = none) :
    ((ManagedSession (some d) bid true o st sc).result
        = .raised (.valueError (notInitMsg (some d)))
      ∧ (ManagedSession (some d) bid true o st sc).events = [])
    ∧ ((ManagedSession (some d) bid false .normal st sc).result = .ok
      ∧ SessionEvent.logFail (notInitMsg (some d))
          ∈ (ManagedSession (some d) bid false .normal st sc).events
      ∧ SessionEvent.yieldBody none
          ∈ (ManagedSession (some d) bid false .normal st sc).events
      ∧ commitCount (ManagedSession (some d) bid false .normal st sc).events = 0
      ∧ rollbackCount (ManagedSession (some d) bid false .normal st sc).events = 0) := by
  have hdb : resolve_db (some d) st = some d := rfl
  rw [ManagedSession_missing_some hdb hf, ManagedSession_missing_some hdb hf]
  refine ⟨⟨rfl, rfl⟩, rfl, ?_, ?_, rfl, rfl⟩ <;> simp [missingRun]

/-- Witness for C6 at a concrete input: `"missing_db"` has no factory in the
one-database registry; with `raise_on_use_before_init` the request raises
the not-initialized `ValueError`, and with tolerant mode it returns
normally, logging and yielding `None`. -/
theorem managed_session_uninitialized_raise_or_tolerant_witness :
    ((ManagedSession (some "missing_db") none true .normal stW scW).result
        = .raised (.valueError "Session factory for missing_db not initialized.")
      ∧ (ManagedSession (some "missing_db") none false .normal stW scW).result = .ok
      ∧ SessionEvent.yieldBody none
          ∈ (ManagedSession (some "missing_db") none false .normal stW scW).events) := by
  have h := managed_session_uninitialized_raise_or_tolerant "missing_db" none stW scW
    .normal (by decide)
  exact ⟨h.1.1, h.2.1, h.2.2.2.1⟩

/-- C8: when the database name is omitted, `ManagedSession` resolves it to
`next(iter(THREAD_SAFE_SESSION_FACTORY), None)`: whenever any database is
initialized the resolved name is one of the initialized (registered)
database names, and in every state with exactly one initialized database
the resolution deterministically yields that database's name. -/
theorem resolve_db_omitted_name (st : DbState) (n : String)
    (f : ScopedSessionFactory) :
    (st.sessionFactory ≠ [] →
      ∃ d, resolve_db none st = some d
        ∧ (lookupKey d st.sessionFactory).isSome = true)
    ∧ (st.sessionFactory = [(n, f)] → resolve_db none st = some n) := by
  constructor
  · intro hne
    rcases hsf : st.sessionFactory with _ | ⟨p, t⟩
    · exact absurd hsf hne
    · exact ⟨p.1, by simp [resolve_db, hsf], by simp [lookupKey, hsf]⟩
  · intro hsf
    simp [resolve_db, hsf]

/-- Witness for C8 at a concrete input: the one-database registry resolves
an omitted name to `"app"`, its only initialized database. -/
theorem resolve_db_omitted_name_witness :
    (∃ d, resolve_db none stW = some d
      ∧ (lookupKey d stW.sessionFactory).isSome = true)
    ∧ resolve_db none stW = some "app" := by
  have h := resolve_db_omitted_name stW "app" facW
  exact ⟨h.1 (by decide), h.2 (by decide)⟩

/-- C4: when a non-empty tenant tag is attached to the calling scope, the
before-flush hook stamps, immediately before the flush, exactly the records
of that flush's new/dirty sets whose tenant tag is not yet set: such a
record's tag becomes the scope's tag; any record outside the new/dirty sets
is left untouched (only the flush sets are scanned, not the whole table);
and any record whose tag is already set — in particular to a non-empty
value — is never overwritten. -/
theorem before_flush_stamps_exactly_unset (t : String) (sc : ScopeState)
    (fs : FlushSession) (ht : t ≠ "") (hsc : sc.backendId = some t) :
    ∀ (i : Nat) (r : FlushRecord), fs.records[i]? = some r →
      ((inFlushSet fs r.rid = true → r.backend_id = none →
          (receive_before_flush sc fs).records[i]? = some ⟨r.rid, some t⟩)
        ∧ (inFlushSet fs r.rid = false →
          (receive_before_flush sc fs).records[i]? = some r)
        ∧ (∀ v, r.backend_id = some v →
          (receive_before_flush sc fs).records[i]? = some r)) := by
  intro i r hr
  have hrw : receive_before_flush sc fs
      = ⟨fs.records.map (stampRecord t fs), fs.dirtyIds, fs.newIds⟩ := by
    simp [receive_before_flush, get_backend_id, hsc, ht]
  rw [hrw]
  refine ⟨?_, ?_, ?_⟩
  · intro hin hb
    simp [List.getElem?_map, hr, stampRecord, hin, hb]
  · intro hin
    simp [List.getElem?_map, hr, stampRecord, hin]
  · intro v hb
    simp [List.getElem?_map, hr, stampRecord, hb]

/-- Witness for C4 at a concrete input: with tag `"B1"` in scope and a flush
whose dirty set is {1} and new set is {2}, the unset dirty record 1 is
stamped `"B1"`, the new record 2 keeps its explicit tag `"B2"`, and the
untouched record 3 outside both sets stays unset. -/
theorem before_flush_stamps_exactly_unset_witness :
    (receive_before_flush ⟨some "B1", []⟩
        ⟨[⟨1, none⟩, ⟨2, some "B2"⟩, ⟨3, none⟩], [1], [2]⟩).records[0]?
      = some ⟨1, some "B1"⟩
    ∧ (receive_before_flush ⟨some "B1", []⟩
        ⟨[⟨1, none⟩, ⟨2, some "B2"⟩, ⟨3, none⟩], [1], [2]⟩).records[1]?
      = some ⟨2, some "B2"⟩
    ∧ (receive_before_flush ⟨some "B1", []⟩
        ⟨[⟨1, none⟩, ⟨2, some "B2"⟩, ⟨3, none⟩], [1], [2]⟩).records[2]?
      = some ⟨3, none⟩ := by
  have h := before_flush_stamps_exactly_unset "B1" ⟨some "B1", []⟩
    ⟨[⟨1, none⟩, ⟨2, some "B2"⟩, ⟨3, none⟩], [1], [2]⟩ (by decide) rfl
  exact ⟨(h 0 ⟨1, none⟩ rfl).1 (by decide) rfl,
    (h 1 ⟨2, some "B2"⟩ rfl).2.2 "B2" rfl,
    (h 2 ⟨3, none⟩ rfl).2.1 (by decide)⟩

/-- C3 counterexample: `init_database` does not propagate the transient
connectivity error it encounters while creating tables.  At this concrete
input `Base.metadata.create_all` raises `OperationalError "connection
refused"` inside the `try` block of `init_database`, yet the call returns
normally (`.ok`, nothing re-raised): the error is suppressed with two log
lines, contradicting the claim that database initialization propagates any
connectivity error rather than logging and continuing. -/
theorem init_database_swallows_operational_error :
    (init_database "mydb" "" "" "localhost" 5432 (.ok true)
        (some "connection refused") ⟨[], []⟩).result = .ok
    ∧ SessionEvent.logFail "Failed to initialize database: connection refused"
        ∈ (init_database "mydb" "" "" "localhost" 5432 (.ok true)
            (some "connection refused") ⟨[], []⟩).events
    ∧ SessionEvent.logNormal "Continuing without db connection..."
        ∈ (init_database "mydb" "" "" "localhost" 5432 (.ok true)
            (some "connection refused") ⟨[], []⟩).events := by
  refine ⟨rfl, ?_, ?_⟩ <;> decide

/-- C3 amended: the core has three tolerant paths, not two — besides the
tolerant-mode missing session and the malformed notification, database
initialization itself catches `OperationalError` raised while creating
tables / initializing the session factory, logs the failure and
`Continuing without db connection...`, and returns normally; connectivity
errors raised outside that `try` block (the database-existence probe) still
propagate to the caller. -/
theorem init_database_tolerant_and_propagating (n u p h : String) (port : Nat)
    (ex : Bool) (e : String) (ca : Option String) (st : DbState) :
    ((init_database n u p h port (.ok ex) (some e) st).result = .ok
      ∧ SessionEvent.logFail ("Failed to initialize database: " ++ e)
          ∈ (init_database n u p h port (.ok ex) (some e) st).events
      ∧ SessionEvent.logNormal "Continuing without db connection..."
          ∈ (init_database n u p h port (.ok ex) (some e) st).events)
    ∧ (init_database n u p h port (.error e) ca st).result
        = .raised (.operationalError e) := by
  refine ⟨⟨?_, ?_, ?_⟩, ?_⟩ <;> simp [init_database]

/-- C9: spec-modelled — any `create_notify_trigger` call whose `events`
argument contains a value outside the fixed set {INSERT, UPDATE, DELETE}
fails with `InvalidEvent`; since validation precedes any DDL, the error
result carries no trigger state and no trigger (partial or otherwise) is
installed on the table. -/
theorem create_notify_trigger_invalid_event (table : String)
    (events : List String) (ts : TriggerState) (e : String)
    (he : e ∈ events) (hv : e ∉ validEvents) :
    ∃ bad, bad ∉ validEvents
      ∧ create_notify_trigger table events ts = .error (.invalidEvent bad) := by
  have hs : (events.find? (fun x => !decide (x ∈ validEvents))).isSome = true := by
    rw [List.find?_isSome]
    exact ⟨e, he, by simpa using hv⟩
  rcases Option.isSome_iff_exists.mp hs with ⟨bad, hbad⟩
  have hbadp := List.find?_some hbad
  refine ⟨bad, by simpa using hbadp, ?_⟩
  simp [create_notify_trigger, hbad]

/-- Witness for C9 at a concrete input: `events = ["INSERT", "TRUNCATE"]`
contains `"TRUNCATE"`, outside the valid set, so the call on a table with
no triggers fails with `InvalidEvent`. -/
theorem create_notify_trigger_invalid_event_witness :
    ∃ bad, bad ∉ validEvents
      ∧ create_notify_trigger "test_table" ["INSERT", "TRUNCATE"] ⟨[]⟩
          = .error (.invalidEvent bad) :=
  create_notify_trigger_invalid_event "test_table" ["INSERT", "TRUNCATE"] ⟨[]⟩
    "TRUNCATE" (by decide) (by decide)
